import Mathlib

/-!
Verification of the symforce geometry kernel against its specification.

The definitions below embed, over exact real arithmetic, the generated C++ of:
* `src/gen/cpp/geo/ops/pose3/lie_group_ops.cc` (SE(3) exponential map, logarithm map,
  retract and local-coordinates),
* `src/gen/cpp/cam/camera.h` (camera with optional image-size bound),
* `src/gen/cpp/cam/atan_camera_cal.h` (ATAN calibration: storage and approximate equality),
* `src/gen/cpp/sym/pose2.cc` (SE(2) point composition),
* `src/test/.../storage_ops/outputs_2_t.h` (flat-struct storage ops).

Machine scalars (`double`/`float`) are modelled as real numbers; `std::sqrt`, `std::sin`,
`std::cos` and `std::acos` become `Real.sqrt`, `Real.sin`, `Real.cos` and `Real.arccos`.
Intermediate `_tmpN` variables of the generated code are kept as `let` bindings so each
definition can be read off line by line against its source.
-/

/-- Storage layout of a 3D pose, as in `geo::Pose3`: `[qx, qy, qz, qw, tx, ty, tz]`,
a unit quaternion (vector part first, then the real part) followed by a translation. -/
@[ext]
structure Pose3 where
  qx : ℝ
  qy : ℝ
  qz : ℝ
  qw : ℝ
  tx : ℝ
  ty : ℝ
  tz : ℝ

/-- A 6-dimensional SE(3) tangent vector: rotation part `[v0, v1, v2]`,
translation part `[v3, v4, v5]`. -/
@[ext]
structure Vec6 where
  v0 : ℝ
  v1 : ℝ
  v2 : ℝ
  v3 : ℝ
  v4 : ℝ
  v5 : ℝ

/-- The epsilon-guarded squared norm of the rotation part of a tangent vector:
`vec2*vec2 + vec1*vec1 + vec0*vec0 + epsilon*epsilon`.  This is the `_tmp3` shared by
`FromTangent` (lines 18-21) and `Retract` (lines 99-102) of
`src/gen/cpp/geo/ops/pose3/lie_group_ops.cc`. -/
def tangentNormSq (vec : Vec6) (epsilon : ℝ) : ℝ :=
  vec.v2 * vec.v2 + vec.v1 * vec.v1 + vec.v0 * vec.v0 + epsilon * epsilon

/-- The clamped argument handed to `acos` by `ToTangent` (line 58) and
`LocalCoordinates` (line 160) of `lie_group_ops.cc`:
`std::max(epsilon - 1, std::min(w, -epsilon + 1))`. -/
def acosArg (w epsilon : ℝ) : ℝ :=
  max (epsilon - 1) (min w (-epsilon + 1))

/-- SE(3) exponential map: `LieGroupOps<Scalar>::FromTangent` of
`src/gen/cpp/geo/ops/pose3/lie_group_ops.cc` (lines 13-49), transcribed term by term. -/
noncomputable def FromTangent (vec : Vec6) (epsilon : ℝ) : Pose3 :=
  let tmp3 := tangentNormSq vec epsilon
  let tmp4 := Real.sqrt tmp3
  let tmp5 := (1 / 2) * tmp4
  let tmp6 := Real.sin tmp5 / tmp4
  let tmp7 := (tmp4 - Real.sin tmp4) / (tmp3 * Real.sqrt tmp3)
  let tmp8 := tmp7 * vec.v0
  let tmp9 := tmp8 * vec.v2
  let tmp10 := (-Real.cos tmp4 + 1) / tmp3
  let tmp11 := tmp10 * vec.v1
  let tmp12 := tmp8 * vec.v1
  let tmp13 := tmp10 * vec.v2
  let tmp14 := -(vec.v1 * vec.v1)
  let tmp15 := -(vec.v2 * vec.v2)
  let tmp16 := tmp7 * vec.v1 * vec.v2
  let tmp17 := tmp10 * vec.v0
  let tmp18 := -(vec.v0 * vec.v0)
  { qx := tmp6 * vec.v0
    qy := tmp6 * vec.v1
    qz := tmp6 * vec.v2
    qw := Real.cos tmp5
    tx := vec.v3 * (tmp7 * (tmp14 + tmp15) + 1) + vec.v4 * (tmp12 - tmp13) +
      vec.v5 * (tmp11 + tmp9)
    ty := vec.v3 * (tmp12 + tmp13) + vec.v4 * (tmp7 * (tmp15 + tmp18) + 1) +
      vec.v5 * (tmp16 - tmp17)
    tz := vec.v3 * (-tmp11 + tmp9) + vec.v4 * (tmp16 + tmp17) +
      vec.v5 * (tmp7 * (tmp14 + tmp18) + 1) }

/-- SE(3) logarithm map: `LieGroupOps<Scalar>::ToTangent` of `lie_group_ops.cc`
(lines 51-91), transcribed term by term. -/
noncomputable def ToTangent (a : Pose3) (epsilon : ℝ) : Vec6 :=
  let tmp0 := max epsilon (-(a.qw * a.qw) + 1)
  let tmp1 := Real.arccos (acosArg a.qw epsilon)
  let tmp2 := tmp1 / Real.sqrt tmp0
  let tmp3 := 2 * tmp2
  let tmp4 := 4 * (tmp1 * tmp1) / tmp0
  let tmp5 := (a.qz * a.qz) * tmp4
  let tmp6 := (a.qy * a.qy) * tmp4
  let tmp7 := (a.qx * a.qx) * tmp4
  let tmp8 := tmp5 + tmp6 + tmp7 + epsilon
  let tmp9 := Real.sqrt tmp8
  let tmp10 := (1 / 2) * tmp9
  let tmp11 := (-(1 / 2) * tmp9 * Real.cos tmp10 / Real.sin tmp10 + 1) / tmp8
  let tmp12 := a.qz * tmp11 * tmp4
  let tmp13 := a.qx * tmp12
  let tmp14 := 1 * tmp2
  let tmp15 := a.qy * tmp14
  let tmp16 := a.qx * a.qy * tmp11 * tmp4
  let tmp17 := a.qz * tmp14
  let tmp18 := -tmp6
  let tmp19 := -tmp5
  let tmp20 := a.qy * tmp12
  let tmp21 := a.qx * tmp14
  let tmp22 := -tmp7
  { v0 := a.qx * tmp3
    v1 := a.qy * tmp3
    v2 := a.qz * tmp3
    v3 := a.tx * (tmp11 * (tmp18 + tmp19) + 1) + a.ty * (tmp16 + tmp17) +
      a.tz * (tmp13 - tmp15)
    v4 := a.tx * (tmp16 - tmp17) + a.ty * (tmp11 * (tmp19 + tmp22) + 1) +
      a.tz * (tmp20 + tmp21)
    v5 := a.tx * (tmp13 + tmp15) + a.ty * (tmp20 - tmp21) +
      a.tz * (tmp11 * (tmp18 + tmp22) + 1) }

/-- Fused retract: `LieGroupOps<Scalar>::Retract` of `lie_group_ops.cc` (lines 93-149),
transcribed term by term (its `_tmp0`, `_tmp1`, `_tmp2` are the squares folded into
`tangentNormSq`; `_tmp16 = -_tmp2`, `_tmp17 = -_tmp1`, `_tmp28 = -_tmp0` appear inline). -/
noncomputable def Retract (a : Pose3) (vec : Vec6) (epsilon : ℝ) : Pose3 :=
  let tmp3 := tangentNormSq vec epsilon
  let tmp4 := Real.sqrt tmp3
  let tmp5 := (1 / 2) * tmp4
  let tmp6 := Real.sin tmp5 / tmp4
  let tmp7 := tmp6 * vec.v2
  let tmp8 := tmp6 * vec.v1
  let tmp9 := Real.cos tmp5
  let tmp10 := a.qw * tmp6
  let tmp11 := tmp6 * vec.v0
  let tmp12 := 2 * a.qy
  let tmp13 := a.qw * tmp12
  let tmp14 := 2 * a.qx
  let tmp15 := a.qz * tmp14
  let tmp16 := -(vec.v0 * vec.v0)
  let tmp17 := -(vec.v1 * vec.v1)
  let tmp18 := (tmp4 - Real.sin tmp4) / (tmp3 * Real.sqrt tmp3)
  let tmp19 := tmp18 * vec.v1 * vec.v2
  let tmp20 := (-Real.cos tmp4 + 1) / tmp3
  let tmp21 := tmp20 * vec.v0
  let tmp22 := tmp18 * vec.v0
  let tmp23 := tmp22 * vec.v2
  let tmp24 := tmp20 * vec.v1
  let tmp25 := vec.v3 * (tmp23 - tmp24) + vec.v4 * (tmp19 + tmp21) +
    vec.v5 * (tmp18 * (tmp16 + tmp17) + 1)
  let tmp26 := 2 * a.qz * a.qw
  let tmp27 := a.qx * tmp12
  let tmp28 := -(vec.v2 * vec.v2)
  let tmp29 := tmp22 * vec.v1
  let tmp30 := tmp20 * vec.v2
  let tmp31 := vec.v3 * (tmp29 + tmp30) + vec.v4 * (tmp18 * (tmp16 + tmp28) + 1) +
    vec.v5 * (tmp19 - tmp21)
  let tmp32 := -2 * (a.qz * a.qz)
  let tmp33 := -2 * (a.qy * a.qy) + 1
  let tmp34 := vec.v3 * (tmp18 * (tmp17 + tmp28) + 1) + vec.v4 * (tmp29 - tmp30) +
    vec.v5 * (tmp23 + tmp24)
  let tmp35 := a.qw * tmp14
  let tmp36 := a.qz * tmp12
  let tmp37 := -2 * (a.qx * a.qx)
  { qx := a.qx * tmp9 + a.qy * tmp7 - a.qz * tmp8 + tmp10 * vec.v0
    qy := -a.qx * tmp7 + a.qy * tmp9 + a.qz * tmp11 + a.qw * tmp8
    qz := a.qx * tmp8 - a.qy * tmp11 + a.qz * tmp9 + tmp10 * vec.v2
    qw := -a.qx * tmp11 - a.qy * tmp8 - a.qz * tmp7 + a.qw * tmp9
    tx := a.tx + tmp25 * (tmp13 + tmp15) + tmp31 * (-tmp26 + tmp27) + tmp34 * (tmp32 + tmp33)
    ty := a.ty + tmp25 * (-tmp35 + tmp36) + tmp31 * (tmp32 + tmp37 + 1) + tmp34 * (tmp26 + tmp27)
    tz := a.tz + tmp25 * (tmp33 + tmp37) + tmp31 * (tmp35 + tmp36) + tmp34 * (-tmp13 + tmp15) }

/-- Transcendental tail of `LieGroupOps<Scalar>::LocalCoordinates` of `lie_group_ops.cc`
(lines 151-219), transcribed term by term as a function of the quaternion terms
`_tmp0`, `_tmp1`, `_tmp6`, `_tmp7` and the rotated translation differences `_tmp19`,
`_tmp38`, `_tmp44` computed by `LocalCoordinates` below. -/
noncomputable def LocalCoordinatesCore (tmp0 tmp1 tmp6 tmp7 tmp19 tmp38 tmp44 epsilon : ℝ) :
    Vec6 :=
  let tmp2 := Real.arccos (acosArg tmp1 epsilon)
  let tmp3 := max epsilon (-(tmp1 * tmp1) + 1)
  let tmp4 := tmp2 / Real.sqrt tmp3
  let tmp5 := 2 * tmp4
  let tmp20 := 4 * (tmp2 * tmp2) / tmp3
  let tmp21 := tmp20 * (tmp7 * tmp7)
  let tmp22 := tmp20 * (tmp6 * tmp6)
  let tmp23 := (tmp0 * tmp0) * tmp20
  let tmp24 := tmp21 + tmp22 + tmp23 + epsilon
  let tmp25 := Real.sqrt tmp24
  let tmp26 := (1 / 2) * tmp25
  let tmp27 := (-(1 / 2) * tmp25 * Real.cos tmp26 / Real.sin tmp26 + 1) / tmp24
  let tmp28 := tmp0 * tmp20 * tmp27
  let tmp29 := tmp28 * tmp7
  let tmp30 := 1 * tmp4
  let tmp31 := tmp30 * tmp6
  let tmp39 := tmp28 * tmp6
  let tmp40 := tmp30 * tmp7
  let tmp45 := -tmp22
  let tmp46 := -tmp21
  let tmp47 := tmp20 * tmp27 * tmp6 * tmp7
  let tmp48 := tmp0 * tmp30
  let tmp49 := -tmp23
  { v0 := tmp0 * tmp5
    v1 := tmp5 * tmp6
    v2 := tmp5 * tmp7
    v3 := tmp19 * (tmp29 - tmp31) + tmp38 * (tmp39 + tmp40) +
      tmp44 * (tmp27 * (tmp45 + tmp46) + 1)
    v4 := tmp19 * (tmp47 + tmp48) + tmp38 * (tmp27 * (tmp46 + tmp49) + 1) +
      tmp44 * (tmp39 - tmp40)
    v5 := tmp19 * (tmp27 * (tmp45 + tmp49) + 1) + tmp38 * (tmp47 - tmp48) +
      tmp44 * (tmp29 + tmp31) }

/-- Fused local-coordinates: `LieGroupOps<Scalar>::LocalCoordinates` of
`lie_group_ops.cc` (lines 151-219).  The quaternion terms `_tmp0`, `_tmp1`, `_tmp6`,
`_tmp7`, the rotation-matrix entries and the rotated translation differences `_tmp19`,
`_tmp38`, `_tmp44` are transcribed here; the remaining block is `LocalCoordinatesCore`. -/
noncomputable def LocalCoordinates (a b : Pose3) (epsilon : ℝ) : Vec6 :=
  let tmp0 := -a.qx * b.qw - a.qy * b.qz + a.qz * b.qy + a.qw * b.qx
  let tmp1 := a.qx * b.qx + a.qy * b.qy + a.qz * b.qz + a.qw * b.qw
  let tmp6 := a.qx * b.qz - a.qy * b.qw - a.qz * b.qx + a.qw * b.qy
  let tmp7 := -a.qx * b.qy + a.qy * b.qx - a.qz * b.qw + a.qw * b.qz
  let tmp8 := -2 * (a.qx * a.qx)
  let tmp9 := -2 * (a.qy * a.qy) + 1
  let tmp10 := tmp8 + tmp9
  let tmp11 := 2 * a.qx
  let tmp12 := a.qw * tmp11
  let tmp13 := 2 * a.qz
  let tmp14 := a.qy * tmp13
  let tmp15 := -tmp12 + tmp14
  let tmp16 := 2 * a.qy * a.qw
  let tmp17 := a.qz * tmp11
  let tmp18 := tmp16 + tmp17
  let tmp19 := -a.tx * tmp18 - a.ty * tmp15 - a.tz * tmp10 + b.tx * tmp18 + b.ty * tmp15 +
    b.tz * tmp10
  let tmp32 := tmp12 + tmp14
  let tmp33 := -2 * (a.qz * a.qz)
  let tmp34 := tmp33 + tmp8 + 1
  let tmp35 := a.qw * tmp13
  let tmp36 := a.qy * tmp11
  let tmp37 := -tmp35 + tmp36
  let tmp38 := -a.tx * tmp37 - a.ty * tmp34 - a.tz * tmp32 + b.tx * tmp37 + b.ty * tmp34 +
    b.tz * tmp32
  let tmp41 := -tmp16 + tmp17
  let tmp42 := tmp35 + tmp36
  let tmp43 := tmp33 + tmp9
  let tmp44 := -a.tx * tmp43 - a.ty * tmp42 - a.tz * tmp41 + b.tx * tmp43 + b.ty * tmp42 +
    b.tz * tmp41
  LocalCoordinatesCore tmp0 tmp1 tmp6 tmp7 tmp19 tmp38 tmp44 epsilon

/-- Modelled from the spec: `GroupOps<Pose3>::Compose` (the generated pose3 group-ops
source is not under `src/`; spec section 4.2).  Rotation composition is the standard
Hamilton quaternion product; the composed translation is the left translation plus the
left rotation, as a unit-quaternion rotation matrix, applied to the right translation. -/
def Compose (a b : Pose3) : Pose3 :=
  { qx := a.qw * b.qx + a.qx * b.qw + a.qy * b.qz - a.qz * b.qy
    qy := a.qw * b.qy - a.qx * b.qz + a.qy * b.qw + a.qz * b.qx
    qz := a.qw * b.qz + a.qx * b.qy - a.qy * b.qx + a.qz * b.qw
    qw := a.qw * b.qw - a.qx * b.qx - a.qy * b.qy - a.qz * b.qz
    tx := a.tx + (1 - 2 * (a.qy * a.qy) - 2 * (a.qz * a.qz)) * b.tx +
      2 * (a.qx * a.qy - a.qz * a.qw) * b.ty + 2 * (a.qx * a.qz + a.qy * a.qw) * b.tz
    ty := a.ty + 2 * (a.qx * a.qy + a.qz * a.qw) * b.tx +
      (1 - 2 * (a.qx * a.qx) - 2 * (a.qz * a.qz)) * b.ty +
      2 * (a.qy * a.qz - a.qx * a.qw) * b.tz
    tz := a.tz + 2 * (a.qx * a.qz - a.qy * a.qw) * b.tx +
      2 * (a.qy * a.qz + a.qx * a.qw) * b.ty +
      (1 - 2 * (a.qx * a.qx) - 2 * (a.qy * a.qy)) * b.tz }

/-- Modelled from the spec: `GroupOps<Pose3>::Inverse` (the generated pose3 group-ops
source is not under `src/`; spec section 4.2).  The rotation inverse is the quaternion
conjugate; the translation of the inverse is minus the inverse rotation applied to the
translation, written with the transposed unit-quaternion rotation matrix. -/
def Inverse (a : Pose3) : Pose3 :=
  { qx := -a.qx
    qy := -a.qy
    qz := -a.qz
    qw := a.qw
    tx := -((1 - 2 * (a.qy * a.qy) - 2 * (a.qz * a.qz)) * a.tx +
      2 * (a.qx * a.qy + a.qz * a.qw) * a.ty + 2 * (a.qx * a.qz - a.qy * a.qw) * a.tz)
    ty := -(2 * (a.qx * a.qy - a.qz * a.qw) * a.tx +
      (1 - 2 * (a.qx * a.qx) - 2 * (a.qz * a.qz)) * a.ty +
      2 * (a.qy * a.qz + a.qx * a.qw) * a.tz)
    tz := -(2 * (a.qx * a.qz + a.qy * a.qw) * a.tx +
      2 * (a.qy * a.qz - a.qx * a.qw) * a.ty +
      (1 - 2 * (a.qx * a.qx) - 2 * (a.qy * a.qy)) * a.tz) }

/-- Derived group operation from the spec: `Between(a, b) = Compose(Inverse(a), b)`. -/
def Between (a b : Pose3) : Pose3 :=
  Compose (Inverse a) b

set_option maxHeartbeats 1600000

/-- C1: for every Pose3 element `a`, every 6-dimensional tangent vector `v` and every
epsilon, the fused arithmetic block of `Retract` produces exactly the 7-vector of
`Compose(a, FromTangent(v, epsilon))`: the quaternion product of the rotation of `a`
with the rotation of the exponential, and the translation of `a` plus the rotation of
`a` applied to the translation of the exponential. -/
theorem retract_eq_compose_fromTangent (a : Pose3) (v : Vec6) (epsilon : ℝ) :
    Retract a v epsilon = Compose a (FromTangent v epsilon) := by
  ext <;> simp only [Retract, Compose, FromTangent, tangentNormSq] <;> ring

/-- Witness for C1 at the identity pose, the zero tangent vector and epsilon one. -/
theorem retract_eq_compose_fromTangent_witness :
    Retract ⟨0, 0, 0, 1, 0, 0, 0⟩ ⟨0, 0, 0, 0, 0, 0⟩ 1 =
      Compose ⟨0, 0, 0, 1, 0, 0, 0⟩ (FromTangent ⟨0, 0, 0, 0, 0, 0⟩ 1) :=
  retract_eq_compose_fromTangent ⟨0, 0, 0, 1, 0, 0, 0⟩ ⟨0, 0, 0, 0, 0, 0⟩ 1

/-- The transcendental tail of the fused `LocalCoordinates` block agrees with
`ToTangent` evaluated at the pose whose storage holds the same seven inputs. -/
theorem localCoordinatesCore_eq_toTangent (t0 t1 t6 t7 t19 t38 t44 epsilon : ℝ) :
    LocalCoordinatesCore t0 t1 t6 t7 t19 t38 t44 epsilon =
      ToTangent ⟨t0, t6, t7, t1, t44, t38, t19⟩ epsilon := by
  ext <;> simp only [LocalCoordinatesCore, ToTangent, acosArg] <;> ring_nf

/-- C2: for every pair of Pose3 elements `a`, `b` and every epsilon, the fused
arithmetic block of `LocalCoordinates` produces exactly the 6-vector of
`ToTangent(Between(a, b), epsilon)` where `Between(a, b) = Compose(Inverse(a), b)`. -/
theorem localCoordinates_eq_toTangent_between (a b : Pose3) (epsilon : ℝ) :
    LocalCoordinates a b epsilon = ToTangent (Between a b) epsilon := by
  show LocalCoordinatesCore _ _ _ _ _ _ _ epsilon = ToTangent (Between a b) epsilon
  rw [localCoordinatesCore_eq_toTangent]
  congr 1
  ext <;> simp only [Between, Compose, Inverse] <;> ring

/-- Witness for C2 at two concrete poses and epsilon one. -/
theorem localCoordinates_eq_toTangent_between_witness :
    LocalCoordinates ⟨0, 0, 0, 1, 0, 0, 0⟩ ⟨0, 0, 0, 1, 1, 2, 3⟩ 1 =
      ToTangent (Between ⟨0, 0, 0, 1, 0, 0, 0⟩ ⟨0, 0, 0, 1, 1, 2, 3⟩) 1 :=
  localCoordinates_eq_toTangent_between ⟨0, 0, 0, 1, 0, 0, 0⟩ ⟨0, 0, 0, 1, 1, 2, 3⟩ 1

/-- C6: for every quaternion real component `w` and every `0 < epsilon < 1`, the clamped
argument handed to `acos` by `ToTangent` and `LocalCoordinates` lies in the interval
`[epsilon - 1, 1 - epsilon]`, hence strictly inside `[-1, 1]`, so `acos` is never
evaluated outside its domain. -/
theorem acosArg_mem_clamped (w epsilon : ℝ) (h0 : 0 < epsilon) (h1 : epsilon < 1) :
    epsilon - 1 ≤ acosArg w epsilon ∧ acosArg w epsilon ≤ 1 - epsilon ∧
      -1 < acosArg w epsilon ∧ acosArg w epsilon < 1 := by
  have hge : epsilon - 1 ≤ acosArg w epsilon := le_max_left _ _
  have hle : acosArg w epsilon ≤ 1 - epsilon := by
    unfold acosArg
    exact max_le (by linarith) (le_trans (min_le_right _ _) (by linarith))
  exact ⟨hge, hle, by linarith, by linarith⟩

/-- Witness for C6 at quaternion real component 5 and epsilon one half. -/
theorem acosArg_mem_clamped_witness :
    (1 : ℝ) / 2 - 1 ≤ acosArg 5 (1 / 2) ∧ acosArg 5 (1 / 2) ≤ 1 - 1 / 2 ∧
      -1 < acosArg 5 (1 / 2) ∧ acosArg 5 (1 / 2) < 1 :=
  acosArg_mem_clamped 5 (1 / 2) (by norm_num) (by norm_num)

/-- C7: in `FromTangent`, epsilon squared is folded into the squared-norm sum before the
square root, so for every tangent vector (including zero) and every nonzero epsilon the
squared norm, the norm and the norm times the squared norm (the cube of the norm, the
three denominators of the computation) are all strictly positive. -/
theorem fromTangent_denominators_pos (v : Vec6) (epsilon : ℝ) (h : epsilon ≠ 0) :
    0 < tangentNormSq v epsilon ∧ 0 < Real.sqrt (tangentNormSq v epsilon) ∧
      0 < tangentNormSq v epsilon * Real.sqrt (tangentNormSq v epsilon) := by
  have hpos : 0 < tangentNormSq v epsilon := by
    unfold tangentNormSq
    have heps : 0 < epsilon * epsilon := mul_self_pos.mpr h
    nlinarith [mul_self_nonneg v.v0, mul_self_nonneg v.v1, mul_self_nonneg v.v2]
  exact ⟨hpos, Real.sqrt_pos.mpr hpos, mul_pos hpos (Real.sqrt_pos.mpr hpos)⟩

/-- Witness for C7 at the zero tangent vector and epsilon one. -/
theorem fromTangent_denominators_pos_witness :
    0 < tangentNormSq ⟨0, 0, 0, 0, 0, 0⟩ 1 ∧
      0 < Real.sqrt (tangentNormSq ⟨0, 0, 0, 0, 0, 0⟩ 1) ∧
      0 < tangentNormSq ⟨0, 0, 0, 0, 0, 0⟩ 1 * Real.sqrt (tangentNormSq ⟨0, 0, 0, 0, 0, 0⟩ 1) :=
  fromTangent_denominators_pos ⟨0, 0, 0, 0, 0, 0⟩ 1 (by norm_num)

/-- A camera calibration model: the polymorphic stand-in for the `CameraCalType`
template parameter of `cam::Camera` in `src/gen/cpp/cam/camera.h`.  Projection and
back-projection each return a numeric result paired with a validity flag. -/
structure CameraCal (F : Type) where
  pixelFromCameraPoint : F × F × F → F → (F × F) × F
  cameraRayFromPixel : F × F → F → (F × F × F) × F

/-- `cam::Camera`: a calibration plus an image size (an `Eigen::Vector2i`, defaulting
to the unbounded sentinel `(-1, -1)`). -/
structure Camera (F : Type) where
  calibration : CameraCal F
  imageSize : ℤ × ℤ

/-- `Camera::InView` (camera.h lines 72-76): 1 when the pixel coordinates are within
`[0, width-1] x [0, height-1]`, else 0. -/
def InView {F : Type} [LinearOrderedField F] (pixel : F × F) (imageSize : ℤ × ℤ) : F :=
  if (0 ≤ pixel.1 ∧ pixel.1 ≤ ((imageSize.1 - 1 : ℤ) : F)) ∧
      (0 ≤ pixel.2 ∧ pixel.2 ≤ ((imageSize.2 - 1 : ℤ) : F)) then 1 else 0

/-- `Camera::MaybeCheckInView` (camera.h lines 60-66): if either image-size component is
nonpositive the image size is not defined and the check is skipped (factor 1). -/
def Camera.MaybeCheckInView {F : Type} [LinearOrderedField F] (cam : Camera F)
    (pixel : F × F) : F :=
  if cam.imageSize.1 ≤ 0 ∨ cam.imageSize.2 ≤ 0 then 1 else InView pixel cam.imageSize

/-- `Camera::PixelFromCameraPoint` (camera.h lines 33-39): delegate to the calibration,
then multiply the returned validity by the in-view factor of the computed pixel. -/
def Camera.PixelFromCameraPoint {F : Type} [LinearOrderedField F] (cam : Camera F)
    (point : F × F × F) (epsilon : F) : (F × F) × F :=
  let r := cam.calibration.pixelFromCameraPoint point epsilon
  (r.1, r.2 * cam.MaybeCheckInView r.1)

/-- `Camera::CameraRayFromPixel` (camera.h lines 52-58): delegate to the calibration,
then multiply the returned validity by the in-view factor of the given pixel. -/
def Camera.CameraRayFromPixel {F : Type} [LinearOrderedField F] (cam : Camera F)
    (pixel : F × F) (epsilon : F) : (F × F × F) × F :=
  let r := cam.calibration.cameraRayFromPixel pixel epsilon
  (r.1, r.2 * cam.MaybeCheckInView pixel)

/-- C3: the validity returned by `Camera::PixelFromCameraPoint` (and
`Camera::CameraRayFromPixel`) is the calibration validity times an in-frame factor;
with a positive image size that factor is 1 exactly when `0 ≤ x ≤ width-1` and
`0 ≤ y ≤ height-1`, and 0 otherwise; with the unbounded sentinel `(-1, -1)` it is
always 1.  In particular, with image size `(640, 480)` a projected pixel `(700, 10)`
yields validity 0 even when the calibration alone reports 1, pixel `(639, 0)` with
calibration validity 1 yields 1, and an unbounded camera never zeroes the validity. -/
theorem camera_validity_composition {F : Type} [LinearOrderedField F] :
    (∀ (cam : Camera F) (point : F × F × F) (epsilon : F),
        (cam.PixelFromCameraPoint point epsilon).2 =
          (cam.calibration.pixelFromCameraPoint point epsilon).2 *
            cam.MaybeCheckInView (cam.calibration.pixelFromCameraPoint point epsilon).1)
    ∧ (∀ (cam : Camera F) (pixel : F × F) (epsilon : F),
        (cam.CameraRayFromPixel pixel epsilon).2 =
          (cam.calibration.cameraRayFromPixel pixel epsilon).2 *
            cam.MaybeCheckInView pixel)
    ∧ (∀ (cam : Camera F) (pixel : F × F), 0 < cam.imageSize.1 → 0 < cam.imageSize.2 →
        cam.MaybeCheckInView pixel =
          if (0 ≤ pixel.1 ∧ pixel.1 ≤ ((cam.imageSize.1 - 1 : ℤ) : F)) ∧
              (0 ≤ pixel.2 ∧ pixel.2 ≤ ((cam.imageSize.2 - 1 : ℤ) : F)) then 1 else 0)
    ∧ (∀ (cam : Camera F) (pixel : F × F), cam.imageSize = (-1, -1) →
        cam.MaybeCheckInView pixel = 1)
    ∧ (∀ (cal : CameraCal F) (point : F × F × F) (epsilon : F),
        (cal.pixelFromCameraPoint point epsilon).1 = (700, 10) →
          ((Camera.mk cal (640, 480)).PixelFromCameraPoint point epsilon).2 = 0)
    ∧ (∀ (cal : CameraCal F) (point : F × F × F) (epsilon : F),
        (cal.pixelFromCameraPoint point epsilon).1 = (639, 0) →
          (cal.pixelFromCameraPoint point epsilon).2 = 1 →
          ((Camera.mk cal (640, 480)).PixelFromCameraPoint point epsilon).2 = 1)
    ∧ (∀ (cal : CameraCal F) (point : F × F × F) (epsilon : F),
        ((Camera.mk cal (-1, -1)).PixelFromCameraPoint point epsilon).2 =
          (cal.pixelFromCameraPoint point epsilon).2) := by
  refine ⟨fun cam point epsilon => rfl, fun cam pixel epsilon => rfl, ?_, ?_, ?_, ?_, ?_⟩
  · intro cam pixel h1 h2
    unfold Camera.MaybeCheckInView InView
    rw [if_neg (by push_neg; omega)]
  · intro cam pixel h
    unfold Camera.MaybeCheckInView
    rw [if_pos (by rw [h]; left; norm_num)]
  · intro cal point epsilon h
    show (cal.pixelFromCameraPoint point epsilon).2 *
      (Camera.mk cal (640, 480)).MaybeCheckInView (cal.pixelFromCameraPoint point epsilon).1 = 0
    rw [h]
    unfold Camera.MaybeCheckInView InView
    rw [if_neg (by norm_num), if_neg (by push_cast; norm_num)]
    exact mul_zero _
  · intro cal point epsilon h hv
    show (cal.pixelFromCameraPoint point epsilon).2 *
      (Camera.mk cal (640, 480)).MaybeCheckInView (cal.pixelFromCameraPoint point epsilon).1 = 1
    rw [h, hv]
    unfold Camera.MaybeCheckInView InView
    rw [if_neg (by norm_num), if_pos ?_]
    · exact one_mul _
    · refine ⟨⟨by norm_num, ?_⟩, ⟨le_refl _, ?_⟩⟩
      · show (639 : F) ≤ ((639 : ℤ) : F)
        norm_num
      · show (0 : F) ≤ ((479 : ℤ) : F)
        norm_num
  · intro cal point epsilon
    show (cal.pixelFromCameraPoint point epsilon).2 *
      (Camera.mk cal (-1, -1)).MaybeCheckInView (cal.pixelFromCameraPoint point epsilon).1 = _
    unfold Camera.MaybeCheckInView
    rw [if_pos (by left; norm_num)]
    exact mul_one _

/-- A constant calibration reporting pixel (700, 10) with validity 1, used to witness C3. -/
def constCal700 : CameraCal ℚ :=
  { pixelFromCameraPoint := fun _ _ => ((700, 10), 1)
    cameraRayFromPixel := fun _ _ => ((0, 0, 1), 1) }

/-- A constant calibration reporting pixel (639, 0) with validity 1, used to witness C3. -/
def constCal639 : CameraCal ℚ :=
  { pixelFromCameraPoint := fun _ _ => ((639, 0), 1)
    cameraRayFromPixel := fun _ _ => ((0, 0, 1), 1) }

/-- Witness for C3 over the rationals: an out-of-frame projection is zeroed, an in-frame
one is kept, and the unbounded sentinel keeps the calibration validity. -/
theorem camera_validity_composition_witness :
    ((Camera.mk constCal700 (640, 480)).PixelFromCameraPoint (0, 0, 1) 0).2 = 0 ∧
      ((Camera.mk constCal639 (640, 480)).PixelFromCameraPoint (0, 0, 1) 0).2 = 1 ∧
      ((Camera.mk constCal700 (-1, -1)).PixelFromCameraPoint (0, 0, 1) 0).2 =
        (constCal700.pixelFromCameraPoint (0, 0, 1) 0).2 ∧
      (Camera.mk constCal700 (640, 480)).MaybeCheckInView (5, 5) = 1 := by
  obtain ⟨-, -, h3, -, h5, h6, h7⟩ := @camera_validity_composition ℚ _
  refine ⟨h5 constCal700 (0, 0, 1) 0 rfl, h6 constCal639 (0, 0, 1) 0 rfl rfl,
    h7 constCal700 (0, 0, 1) 0, ?_⟩
  rw [h3 (Camera.mk constCal700 (640, 480)) (5, 5) (by norm_num) (by norm_num)]
  norm_num

/-- C9: the image-bounds check changes only the validity flag, never the numeric
result: `Camera::PixelFromCameraPoint` returns exactly the pixel computed by the
wrapped calibration, and `Camera::CameraRayFromPixel` exactly the calibration ray,
for every camera, point, pixel and epsilon. -/
theorem camera_preserves_numeric_result {F : Type} [LinearOrderedField F]
    (cam : Camera F) (point : F × F × F) (pixel : F × F) (epsilon : F) :
    (cam.PixelFromCameraPoint point epsilon).1 =
        (cam.calibration.pixelFromCameraPoint point epsilon).1 ∧
      (cam.CameraRayFromPixel pixel epsilon).1 =
        (cam.calibration.cameraRayFromPixel pixel epsilon).1 :=
  ⟨rfl, rfl⟩

/-- Witness for C9 over the rationals with a concrete calibration, an out-of-frame
pixel included. -/
theorem camera_preserves_numeric_result_witness :
    ((Camera.mk constCal700 (640, 480)).PixelFromCameraPoint (0, 0, 1) 0).1 =
        (constCal700.pixelFromCameraPoint (0, 0, 1) 0).1 ∧
      ((Camera.mk constCal700 (640, 480)).CameraRayFromPixel (700, 10) 0).1 =
        (constCal700.cameraRayFromPixel (700, 10) 0).1 :=
  camera_preserves_numeric_result (Camera.mk constCal700 (640, 480)) (0, 0, 1) (700, 10) 0

/-- `cam::ATANCameraCal` of `src/gen/cpp/cam/atan_camera_cal.h`: an ATAN camera model
whose stored data vector holds the 5 parameters `[fx, fy, cx, cy, omega]`. -/
@[ext]
structure ATANCameraCal where
  fx : ℝ
  fy : ℝ
  cx : ℝ
  cy : ℝ
  omega : ℝ

/-- The all-zero stored data vector (`DataVec::Zero()`). -/
def ATANCameraCal.zero : ATANCameraCal :=
  ⟨0, 0, 0, 0, 0⟩

/-- Squared Euclidean norm of the stored data vector. -/
def ATANCameraCal.dataSqNorm (c : ATANCameraCal) : ℝ :=
  c.fx * c.fx + c.fy * c.fy + c.cx * c.cx + c.cy * c.cy + c.omega * c.omega

/-- Euclidean norm of the stored data vector (`Data().norm()`). -/
noncomputable def ATANCameraCal.dataNorm (c : ATANCameraCal) : ℝ :=
  Real.sqrt c.dataSqNorm

/-- Componentwise difference of stored data vectors. -/
def ATANCameraCal.sub (a b : ATANCameraCal) : ATANCameraCal :=
  ⟨a.fx - b.fx, a.fy - b.fy, a.cx - b.cx, a.cy - b.cy, a.omega - b.omega⟩

/-- Eigen `DenseBase::isApprox`: multiplicative (relative) comparison
`||a - b||^2 ≤ tol^2 * min(||a||^2, ||b||^2)`, as referenced by
`ATANCameraCal::IsApprox` for a nonzero right operand. -/
def eigenIsApprox (a b : ATANCameraCal) (tol : ℝ) : Prop :=
  (a.sub b).dataSqNorm ≤ tol * tol * min a.dataSqNorm b.dataSqNorm

/-- `ATANCameraCal::IsApprox` (atan_camera_cal.h lines 85-93): when the stored data of
`b` is exactly zero, compare the norm of `a` against `tol` directly (Eigen isApprox is
multiplicative and degenerate against exact zero); otherwise use Eigen isApprox. -/
noncomputable def ATANCameraCal.IsApprox (a b : ATANCameraCal) (tol : ℝ) : Prop :=
  open Classical in
  if b = ATANCameraCal.zero then a.dataNorm < tol else eigenIsApprox a b tol

/-- C4 counterexample: at `a = (3, 4, 0, 0, 0)`, `b = 0`, `tol = 5`, the norm of `a` is
exactly 5, which does not exceed `tol`, yet `IsApprox` reports not-approximately-equal
(the code comparison is strict: `Data().norm() < tol`). -/
theorem isApprox_zero_boundary_cex :
    ¬ ((ATANCameraCal.mk 3 4 0 0 0).dataNorm > 5) ∧
      ¬ ATANCameraCal.IsApprox (ATANCameraCal.mk 3 4 0 0 0) ATANCameraCal.zero 5 := by
  have hnorm : (ATANCameraCal.mk 3 4 0 0 0).dataNorm = 5 := by
    unfold ATANCameraCal.dataNorm ATANCameraCal.dataSqNorm
    norm_num
    rw [show (25 : ℝ) = 5 ^ 2 by norm_num]
    exact Real.sqrt_sq (by norm_num)
  constructor
  · rw [hnorm]
    exact lt_irrefl 5
  · unfold ATANCameraCal.IsApprox
    rw [if_pos rfl, hnorm]
    exact lt_irrefl 5

/-- C4 amended: when the stored data of `b` is exactly all-zero, `IsApprox(a, b, tol)`
compares the norm of `a` against `tol` directly rather than relatively: it holds exactly
when the norm of `a` is strictly below `tol` (in particular it reports
not-approximately-equal whenever the norm exceeds `tol`). -/
theorem isApprox_zero_norm_comparison (a b : ATANCameraCal) (tol : ℝ)
    (hb : b = ATANCameraCal.zero) :
    (ATANCameraCal.IsApprox a b tol ↔ a.dataNorm < tol) ∧
      (a.dataNorm > tol → ¬ ATANCameraCal.IsApprox a b tol) := by
  subst hb
  unfold ATANCameraCal.IsApprox
  rw [if_pos rfl]
  exact ⟨Iff.rfl, fun h hlt => absurd hlt (not_lt.mpr (le_of_lt h))⟩

/-- Witness for C4 (amended) at a concrete calibration and tolerance. -/
theorem isApprox_zero_norm_comparison_witness :
    (ATANCameraCal.IsApprox (ATANCameraCal.mk 1 0 0 0 0) ATANCameraCal.zero 2 ↔
        (ATANCameraCal.mk 1 0 0 0 0).dataNorm < 2) ∧
      ((ATANCameraCal.mk 1 0 0 0 0).dataNorm > 2 →
        ¬ ATANCameraCal.IsApprox (ATANCameraCal.mk 1 0 0 0 0) ATANCameraCal.zero 2) :=
  isApprox_zero_norm_comparison (ATANCameraCal.mk 1 0 0 0 0) ATANCameraCal.zero 2 rfl

/-- `codegen_multi_function::outputs_2_t` (from the codegen test data): a flat struct
with a single scalar field `foo`. -/
structure outputs_2_t (F : Type) where
  foo : F

/-- `StorageOps::StorageDim<outputs_2_t>` (outputs_2_t.h lines 12-15): 1. -/
def outputs_2_t.StorageDim : ℕ := 1

/-- `StorageOps::ToStorage<outputs_2_t>` (outputs_2_t.h lines 17-24): resize the vector
to 1 and write `value.foo` at index 0. -/
def outputs_2_t.ToStorage {F : Type} (value : outputs_2_t F) : List F :=
  [value.foo]

/-- `StorageOps::FromStorage<outputs_2_t>` (outputs_2_t.h lines 26-30): read `foo` from
element 0; per the spec storage contract, defined only when the vector length equals
`StorageDim`. -/
def outputs_2_t.FromStorage {F : Type} (elements : List F) : Option (outputs_2_t F) :=
  if h : elements.length = outputs_2_t.StorageDim then
    some ⟨elements.get ⟨0, by unfold outputs_2_t.StorageDim at h; omega⟩⟩
  else none

/-- Modelled from the spec: `geo::StorageOps<ATANCameraCal>::ToStorage` (the generated
`ops/atan_camera_cal/storage_ops.h` included by `atan_camera_cal.h` is not under
`src/`): flatten the 5 parameters in the documented order `[fx, fy, cx, cy, omega]`,
component for component, with no renormalization. -/
def ATANCameraCal.ToStorage (c : ATANCameraCal) : List ℝ :=
  [c.fx, c.fy, c.cx, c.cy, c.omega]

/-- Modelled from the spec: `geo::StorageOps<ATANCameraCal>::FromStorage`: rebuild the
calibration from the flat vector, defined only when its length equals the storage
dimension 5. -/
def ATANCameraCal.FromStorage (vec : List ℝ) : Option ATANCameraCal :=
  if h : vec.length = 5 then
    some ⟨vec.get ⟨0, by omega⟩, vec.get ⟨1, by omega⟩, vec.get ⟨2, by omega⟩,
      vec.get ⟨3, by omega⟩, vec.get ⟨4, by omega⟩⟩
  else none

/-- C5: unflattening the storage vector produced by flattening reproduces the value
exactly, component for component, and the storage vector has the type-specific fixed
length: for `outputs_2_t` (generated code) and for `ATANCameraCal` (storage ops
modelled from the spec). -/
theorem storage_round_trip :
    (∀ {F : Type} (x : outputs_2_t F),
        outputs_2_t.FromStorage x.ToStorage = some x ∧
          x.ToStorage.length = outputs_2_t.StorageDim)
    ∧ (∀ c : ATANCameraCal,
        ATANCameraCal.FromStorage c.ToStorage = some c ∧ c.ToStorage.length = 5) :=
  ⟨fun _x => ⟨rfl, rfl⟩, fun _c => ⟨rfl, rfl⟩⟩

/-- Witness for C5 at concrete values. -/
theorem storage_round_trip_witness :
    outputs_2_t.FromStorage (outputs_2_t.ToStorage (⟨7⟩ : outputs_2_t ℚ)) = some ⟨7⟩ ∧
      ATANCameraCal.FromStorage (ATANCameraCal.ToStorage ⟨1, 2, 3, 4, 5⟩) =
        some ⟨1, 2, 3, 4, 5⟩ :=
  ⟨(storage_round_trip.1 (⟨7⟩ : outputs_2_t ℚ)).1, (storage_round_trip.2 ⟨1, 2, 3, 4, 5⟩).1⟩

/-- `sym::Pose2` of `src/gen/cpp/sym/pose2.cc`: storage `[p0, p1, p2, p3]`, the 2D
rotation direction `(cos, sin)` followed by the translation. -/
structure Pose2 where
  p0 : ℝ
  p1 : ℝ
  p2 : ℝ
  p3 : ℝ

/-- `Pose2::ComposeWithPoint` (pose2.cc lines 65-82): apply the pose to a 2D point. -/
def Pose2.ComposeWithPoint (s : Pose2) (right : ℝ × ℝ) : ℝ × ℝ :=
  (s.p0 * right.1 - s.p1 * right.2 + s.p2,
   s.p0 * right.2 + s.p1 * right.1 + s.p3)

/-- `Pose2::InverseCompose` (pose2.cc lines 84-103): apply the inverse pose to a point. -/
def Pose2.InverseCompose (s : Pose2) (point : ℝ × ℝ) : ℝ × ℝ :=
  (-s.p0 * s.p2 + s.p0 * point.1 - s.p1 * s.p3 + s.p1 * point.2,
   -s.p0 * s.p3 + s.p0 * point.2 + s.p1 * s.p2 - s.p1 * point.1)

/-- C10: for every `Pose2` whose rotation parameters satisfy the unit-norm invariant
`p0^2 + p1^2 = 1` and every 2D point, applying the pose to the point and then applying
the inverse pose recovers the point exactly, over exact real arithmetic. -/
theorem inverseCompose_composeWithPoint (p : Pose2) (x : ℝ × ℝ)
    (h : p.p0 * p.p0 + p.p1 * p.p1 = 1) :
    p.InverseCompose (p.ComposeWithPoint x) = x := by
  obtain ⟨x1, x2⟩ := x
  unfold Pose2.InverseCompose Pose2.ComposeWithPoint
  simp only [Prod.mk.injEq]
  constructor
  · linear_combination x1 * h
  · linear_combination x2 * h

/-- Witness for C10 at a concrete unit-norm pose and point. -/
theorem inverseCompose_composeWithPoint_witness :
    Pose2.InverseCompose ⟨1, 0, 2, 3⟩ (Pose2.ComposeWithPoint ⟨1, 0, 2, 3⟩ (4, 5)) = (4, 5) :=
  inverseCompose_composeWithPoint ⟨1, 0, 2, 3⟩ (4, 5) (by norm_num)
